import Mathlib

/-!
Verification development for the backup/restore and remote-synchronization
subsystem of the equipment-checkout tracker (src/services/storageService.ts,
src/types.ts).

The TypeScript code is shallowly embedded: parsed JSON documents become the
inductive `JsonValue` (JS `undefined` is `Option.none` at use sites), the
browser `localStorage` becomes `Store` (a map from the six storage keys to an
optional stored string, where a stored string is either valid JSON or an
unparseable string such as the `"undefined"` produced by
`localStorage.setItem(k, JSON.stringify(undefined))`), timestamps are passed in
through an explicit `Clock`, and each operation is a pure function from its
inputs (including the store) to its outputs (including the updated store).
JavaScript exceptions (TypeError on property access of null, spread of a
non-iterable) are modelled with `Except Unit`.
-/

/-- Parsed JSON values (the result of a successful `JSON.parse`).
JSON numbers are modelled as integers; none of the modelled code paths
performs fractional arithmetic on document fields. -/
inductive JsonValue where
  | null
  | bool (b : Bool)
  | num (n : Int)
  | str (s : String)
  | arr (elems : List JsonValue)
  | obj (fields : List (String × JsonValue))

/-- JavaScript truthiness of a possibly-undefined value (`none` = `undefined`).
Falsy values: `undefined`, `null`, `false`, `0`, `""`. Objects and arrays are
always truthy. -/
def truthy : Option JsonValue → Bool
  | none => false
  | some .null => false
  | some (.bool b) => b
  | some (.num n) => !(n == 0)
  | some (.str s) => !(s == "")
  | some (.arr _) => true
  | some (.obj _) => true

/-- JavaScript property access `v.f` for a value `v` that is not `null` or
`undefined` (those throw and are handled at each call site). Objects yield the
named field or `undefined`; arrays and strings expose `length`; other
primitives yield `undefined`. -/
def jsFieldT (v : JsonValue) (f : String) : Option JsonValue :=
  match v with
  | .obj fields => (fields.find? (fun p => p.1 == f)).map (fun p => p.2)
  | .arr xs => if f == "length" then some (.num xs.length) else none
  | .str s => if f == "length" then some (.num (s.length : Nat)) else none
  | _ => none

/-- JavaScript optional-chained property access `v?.f`: `null`/`undefined`
short-circuit to `undefined` instead of throwing. -/
def jsOptField (v : Option JsonValue) (f : String) : Option JsonValue :=
  match v with
  | none => none
  | some .null => none
  | some w => jsFieldT w f

/-- Strict equality test `x === 0` for a possibly-undefined value. -/
def strictEqZero : Option JsonValue → Bool
  | some (.num n) => n == 0
  | _ => false

/-- The test `a?.length === 0` used on the current administrator list. -/
def optLenEqZero : Option JsonValue → Bool
  | none => false
  | some .null => false
  | some v => strictEqZero (jsFieldT v "length")

/-- JavaScript spread `[x, ...v]` of a value: arrays spread to their elements,
strings to their characters, everything else throws a TypeError (`none`). -/
def spreadList : JsonValue → Option (List JsonValue)
  | .arr xs => some xs
  | .str s => some (s.data.map (fun ch => .str (String.singleton ch)))
  | _ => none

/-- JavaScript property update `v.f = x`: replaces the field in place when `v`
is an object (appending when absent); assignment to a property of a primitive
is silently ignored in non-strict mode. -/
def jsSetField (v : JsonValue) (f : String) (x : JsonValue) : JsonValue :=
  match v with
  | .obj fields =>
    .obj (if (fields.find? (fun p => p.1 == f)).isSome
      then fields.map (fun p => if p.1 == f then (p.1, x) else p)
      else fields ++ [(f, x)])
  | other => other

mutual

/-- JavaScript string conversion `String(v)` as used by template literals.
Arrays stringify by joining element conversions with commas, where `null`
elements become the empty string; objects become `[object Object]`. -/
def jsToString : JsonValue → String
  | .null => "null"
  | .bool b => cond b "true" "false"
  | .num n => toString n
  | .str s => s
  | .arr xs => jsArrayToString xs
  | .obj _ => "[object Object]"

/-- Comma-joined rendering of array elements for `jsToString`. -/
def jsArrayToString : List JsonValue → String
  | [] => ""
  | [x] => jsElemToString x
  | x :: rest => jsElemToString x ++ "," ++ jsArrayToString rest

/-- Element conversion inside `Array.prototype.toString`: `null` becomes the
empty string. -/
def jsElemToString : JsonValue → String
  | .null => ""
  | v => jsToString v

end

/-- String conversion of a possibly-undefined interpolated value. -/
def jsToStringOpt : Option JsonValue → String
  | none => "undefined"
  | some v => jsToString v

/-- JSON escaping of one character, as performed by `JSON.stringify` for the
characters that occur in the modelled documents. -/
def escapeJsonChar (c : Char) : String :=
  if c = '"' then "\\\""
  else if c = '\\' then "\\\\"
  else if c = '\n' then "\\n"
  else if c = '\r' then "\\r"
  else if c = '\t' then "\\t"
  else String.singleton c

/-- JSON escaping of a string body. -/
def escapeJsonString (s : String) : String :=
  String.join (s.data.map escapeJsonChar)

mutual

/-- Serialization of a document to JSON text, modelling `JSON.stringify`. -/
def renderJson : JsonValue → String
  | .null => "null"
  | .bool b => cond b "true" "false"
  | .num n => toString n
  | .str s => "\"" ++ escapeJsonString s ++ "\""
  | .arr xs => "[" ++ renderJsonList xs ++ "]"
  | .obj fields => "\x7b" ++ renderJsonFields fields ++ "\x7d"

/-- Comma-separated rendering of array elements. -/
def renderJsonList : List JsonValue → String
  | [] => ""
  | [x] => renderJson x
  | x :: rest => renderJson x ++ "," ++ renderJsonList rest

/-- Comma-separated rendering of object fields. -/
def renderJsonFields : List (String × JsonValue) → String
  | [] => ""
  | [(f, x)] => "\"" ++ escapeJsonString f ++ "\":" ++ renderJson x
  | (f, x) :: rest =>
    "\"" ++ escapeJsonString f ++ "\":" ++ renderJson x ++ "," ++ renderJsonFields rest

end

/-- The six `localStorage` keys of the `KEYS` table. -/
inductive StorageKey where
  | materials
  | personnel
  | cautelas
  | logs
  | settings
  | armorer
deriving DecidableEq

/-- A string held in `localStorage`: either valid JSON text (represented by
its parse) or an unparseable string such as the literal `"undefined"` that
`setItem` stores when handed `JSON.stringify(undefined)`. -/
inductive StoredVal where
  | json (v : JsonValue)
  | invalid

/-- The browser `localStorage`, restricted to the keys the service uses. -/
def Store := StorageKey → Option StoredVal

/-- A store with no entries. -/
def emptyStore : Store := fun _ => none

/-- What `set` stores for a value: `JSON.stringify(undefined)` is `undefined`,
which `setItem` coerces to the unparseable string `"undefined"`. -/
def encodeStored : Option JsonValue → StoredVal
  | some v => .json v
  | none => .invalid

/-- The generic setter `set`: `localStorage.setItem(key, JSON.stringify(value))`. -/
def setVal (s : Store) (k : StorageKey) (v : Option JsonValue) : Store :=
  fun k2 => if k2 = k then some (encodeStored v) else s k2

/-- The generic getter `get`: parse the stored string, fall back to the
default when the key is absent or `JSON.parse` throws. -/
def getVal (s : Store) (k : StorageKey) (dflt : JsonValue) : JsonValue :=
  match s k with
  | some (.json v) => v
  | some .invalid => dflt
  | none => dflt

/-- The default settings object handed to `get` by `getSettings`. -/
def defaultSettings : JsonValue :=
  .obj [("institutionName", .str "Polícia Militar"),
        ("theme", .str "light"),
        ("admins", .arr []),
        ("backup", .obj [("enabled", .bool false), ("frequency", .str "never")])]

def getMaterials (s : Store) : JsonValue := getVal s .materials (.arr [])
def saveMaterials (s : Store) (v : Option JsonValue) : Store := setVal s .materials v
def getPersonnel (s : Store) : JsonValue := getVal s .personnel (.arr [])
def savePersonnel (s : Store) (v : Option JsonValue) : Store := setVal s .personnel v
def getCautelas (s : Store) : JsonValue := getVal s .cautelas (.arr [])
def saveCautelas (s : Store) (v : Option JsonValue) : Store := setVal s .cautelas v
def getLogs (s : Store) : JsonValue := getVal s .logs (.arr [])
def saveLogs (s : Store) (v : Option JsonValue) : Store := setVal s .logs v
def getSettings (s : Store) : JsonValue := getVal s .settings defaultSettings
def saveSettings (s : Store) (v : Option JsonValue) : Store := setVal s .settings v

/-- The ambient clock: `Date.now()` in milliseconds and
`new Date().toISOString()`. -/
structure Clock where
  nowMs : Nat
  nowIso : String

/-- The `SystemLog` record built by `addLog`. -/
def logEntry (armorerName action details : String) (c : Clock) : JsonValue :=
  .obj [("id", .str (toString c.nowMs)),
        ("armorerName", .str armorerName),
        ("action", .str action),
        ("details", .str details),
        ("timestamp", .str c.nowIso)]

/-- `StorageService.addLog`: read the logs, prepend a new entry, save. The
spread `[newLog, ...logs]` throws when the stored logs value is not iterable;
in that case nothing is written and the exception propagates. -/
def addLog (s : Store) (armorerName action details : String) (c : Clock) :
    Except Unit Store :=
  match spreadList (getLogs s) with
  | none => .error ()
  | some tail => .ok (saveLogs s (some (.arr (logEntry armorerName action details c :: tail))))

/-- `StorageService.generateBackupData` in state-passing form: each collection
is read from the store, which is threaded through unchanged (the getters only
call `localStorage.getItem`). -/
def generateBackupDataS (c : Clock) (s : Store) : JsonValue × Store :=
  let (m, s1) := (getMaterials s, s)
  let (p, s2) := (getPersonnel s1, s1)
  let (ca, s3) := (getCautelas s2, s2)
  let (l, s4) := (getLogs s3, s3)
  let (st, s5) := (getSettings s4, s4)
  (.obj [("materials", m), ("personnel", p), ("cautelas", ca), ("logs", l),
         ("settings", st), ("timestamp", .str c.nowIso), ("version", .str "1.1"),
         ("integrityHash", .str (toString c.nowMs))], s5)

/-- The lockout advisory of `restoreBackup`: when the incoming settings carry
no administrators (absent, or with `length === 0`) it inspects the current
settings; the access `getSettings().admins` throws when the stored settings
parse to `null`. Returns the number of `console.warn` advisories emitted. -/
def advisoryCheck (settingsV : JsonValue) (s : Store) : Except Unit Nat :=
  let admins := jsFieldT settingsV "admins"
  if !truthy admins || strictEqZero (jsOptField admins "length") then
    match getSettings s with
    | .null => .error ()
    | cur => .ok (if optLenEqZero (jsFieldT cur "admins") then 1 else 0)
  else .ok 0

/-- The five sequential collection writes of the restore apply step. -/
def applyRestore (json : JsonValue) (s : Store) : Store :=
  let s1 := saveMaterials s (jsFieldT json "materials")
  let s2 := savePersonnel s1 (jsFieldT json "personnel")
  let s3 := saveCautelas s2 (jsFieldT json "cautelas")
  let s4 := saveLogs s3 (jsFieldT json "logs")
  saveSettings s4 (jsFieldT json "settings")

/-- The observable result of one `processJson`/`restoreBackup` run: the final
store, the number of advisory warnings, the argument of the single callback
invocation (`none` when the callback was never reached), and whether an
exception escaped the function. -/
structure RestoreOutcome where
  store : Store
  warnings : Nat
  callback : Option (Bool × String)
  escaped : Bool

/-- The catch block of `processJson`: log the processing error and report
failure; the `addLog` inside the catch can itself throw (non-iterable stored
logs), in which case the exception escapes and the callback is never called. -/
def catchProcess (initiator : String) (c : Clock) (s : Store) (w : Nat) :
    RestoreOutcome :=
  match addLog s initiator "Erro Restauração" "Erro ao processar JSON." c with
  | .error _ => ⟨s, w, none, true⟩
  | .ok s2 => ⟨s2, w, some (false, "Erro crítico ao processar dados."), false⟩

/-- The `processJson` closure of `StorageService.restoreBackup`. The input is
the outcome of `JSON.parse` on the text (`.error` when parsing threw). A
parse result of `null` throws on the first property access `json.version` and
lands in the catch block. -/
def processJson (parsed : Except Unit JsonValue) (initiator : String) (c : Clock)
    (s : Store) : RestoreOutcome :=
  match parsed with
  | .error _ => catchProcess initiator c s 0
  | .ok .null => catchProcess initiator c s 0
  | .ok json =>
    if truthy (jsFieldT json "version") && truthy (jsFieldT json "materials")
        && truthy (jsFieldT json "settings") then
      match advisoryCheck ((jsFieldT json "settings").getD .null) s with
      | .error _ => catchProcess initiator c s 0
      | .ok w =>
        let s5 := applyRestore json s
        match addLog s5 initiator "Restauração"
            ("Sistema restaurado com sucesso. Versão do backup: "
              ++ jsToStringOpt (jsFieldT json "version")) c with
        | .error _ => catchProcess initiator c s5 w
        | .ok s6 => ⟨s6, w, some (true, "Dados restaurados com sucesso."), false⟩
    else
      match addLog s initiator "Erro Restauração"
          "Arquivo inválido ou corrompido (falta estrutura básica)." c with
      | .error _ => ⟨s, 0, none, true⟩
      | .ok s1 => ⟨s1, 0, some (false, "Estrutura do arquivo inválida."), false⟩

/-- JavaScript `name.endsWith(suffix)`, as a character-suffix test. -/
def jsEndsWith (s suffix : String) : Bool :=
  suffix.data.isSuffixOf s.data

/-- The three input shapes accepted by `restoreBackup`: a raw string (carried
as its `JSON.parse` outcome), a zip `File` (carried as the outcome of
`JSZip.loadAsync`, a list of member names and member texts), or any other
`File` (carried as the optional result of the `FileReader`). -/
inductive RestoreInput where
  | rawString (parsed : Except Unit JsonValue)
  | zipFile (load : Except Unit (List (String × String)))
  | textFile (readResult : Option String)

/-- `StorageService.restoreBackup`. `parseOf` gives the `JSON.parse` outcome
of any text reaching `processJson` through the zip or file-reader paths. An
exception escaping `processJson` inside the zip promise chain is caught by the
trailing `.catch`, which reports the generic zip-read failure. -/
def restoreBackup (input : RestoreInput) (parseOf : String → Except Unit JsonValue)
    (initiator : String) (c : Clock) (s : Store) : RestoreOutcome :=
  match input with
  | .rawString parsed => processJson parsed initiator c s
  | .zipFile (.error _) => ⟨s, 0, some (false, "Erro ao ler arquivo ZIP."), false⟩
  | .zipFile (.ok members) =>
    match members.find? (fun m => jsEndsWith m.1 ".json") with
    | none => ⟨s, 0, some (false, "Erro ao ler arquivo ZIP."), false⟩
    | some m =>
      if m.2 == "" then ⟨s, 0, some (false, "ZIP vazio ou ilegível."), false⟩
      else
        let o := processJson (parseOf m.2) initiator c s
        if o.escaped then ⟨o.store, o.warnings, some (false, "Erro ao ler arquivo ZIP."), false⟩
        else o
  | .textFile none => ⟨s, 0, some (false, "Falha na leitura do arquivo."), false⟩
  | .textFile (some txt) => processJson (parseOf txt) initiator c s

/-- The archive step of `createBackup`/`uploadBackup`: the serialized snapshot
is stored as the sole member `backup_sentinela.json` of the zip container. A
container is modelled as its list of members (name, decompressed text). -/
def encodeZip (jsonContent : String) : List (String × String) :=
  [("backup_sentinela.json", jsonContent)]

/-- The archive-decoding step of the zip branch of `restoreBackup`: find the
first member whose name ends in `.json` and return its text; throw when the
container has no such member. -/
def decodeZip (members : List (String × String)) : Except Unit String :=
  match members.find? (fun m => jsEndsWith m.1 ".json") with
  | some m => .ok m.2
  | none => .error ()

/-- A folder in the remote Drive as seen by the queries of
`findOrCreateFolderChain`. -/
structure DriveFolder where
  id : Nat
  name : String
  parent : Option Nat
  trashed : Bool

/-- The remote store: the folders in creation order plus a fresh-id counter. -/
structure DriveState where
  folders : List DriveFolder
  nextId : Nat

/-- The search query of `findFolder`: matches name and `trashed=false`; the
parent clause is only added when a parent id is supplied. -/
def matchesQuery (name : String) (parentId : Option Nat) (f : DriveFolder) : Bool :=
  f.name == name && !f.trashed &&
    (match parentId with
     | none => true
     | some p => f.parent == some p)

/-- `findFolder`: first folder matching the query (`data.files[0]`), if any. -/
def findFolder (s : DriveState) (name : String) (parentId : Option Nat) : Option Nat :=
  (s.folders.find? (matchesQuery name parentId)).map DriveFolder.id

/-- `createFolder`: POST a new folder with the given parent; the remote
assigns a fresh id. -/
def createFolder (s : DriveState) (name : String) (parentId : Option Nat) :
    Nat × DriveState :=
  (s.nextId, ⟨s.folders ++ [⟨s.nextId, name, parentId, false⟩], s.nextId + 1⟩)

/-- `GoogleDriveService.findOrCreateFolderChain`: resolve (find or create) the
root folder `App_Controle_Armamento`, then the `Backups` sub-folder beneath
it; return the sub-folder id and the updated remote state. -/
def findOrCreateFolderChain (s : DriveState) : Nat × DriveState :=
  let root :=
    match findFolder s "App_Controle_Armamento" none with
    | some rid => (rid, s)
    | none => createFolder s "App_Controle_Armamento" none
  let backup :=
    match findFolder root.2 "Backups" (some root.1) with
    | some bid => (bid, root.2)
    | none => createFolder root.2 "Backups" (some root.1)
  backup

/-- The number of folders of a given name in the remote state; creations of a
segment are visible as an increase of this count. -/
def countName (s : DriveState) (name : String) : Nat :=
  s.folders.countP (fun f => f.name == name)

/-- Outcomes of the remote calls made during one upload cycle:
`getAccessToken` (may reject), and the multipart upload `fetch`
(`response.ok`, and `result.id` when ok). -/
structure RemoteEnv where
  authToken : Except Unit String
  uploadOk : Bool
  uploadFileId : String

/-- The observable result of `GoogleDriveService.uploadBackup`: final store,
final remote state, and either `.ok true` (resolved) or `.error ()` (the
rethrown exception, or the exception of a failing `addLog`). -/
structure UploadOutcome where
  store : Store
  drive : DriveState
  result : Except Unit Bool

/-- The catch block of `uploadBackup`: log the Drive failure, then rethrow. -/
def catchUpload (initiator : String) (c : Clock) (s : Store) (d : DriveState) :
    UploadOutcome :=
  match addLog s initiator "Erro Backup Drive" "Falha no envio para Google Drive." c with
  | .error _ => ⟨s, d, .error ()⟩
  | .ok s2 => ⟨s2, d, .error ()⟩

/-- `GoogleDriveService.uploadBackup`: authenticate, resolve the folder chain,
build and archive a fresh snapshot, upload it; on success stamp
`backup.lastBackupDate` in the settings (when the parsed settings carry a
truthy `backup`) and log success; on any failure log the Drive error and
rethrow. The property access `currentSettings.backup` throws when the stored
settings parse to `null`. -/
def uploadBackup (env : RemoteEnv) (drive : DriveState) (initiator : String)
    (c : Clock) (s : Store) : UploadOutcome :=
  match env.authToken with
  | .error _ => catchUpload initiator c s drive
  | .ok _tok =>
    let r := findOrCreateFolderChain drive
    let _archived := encodeZip (renderJson (generateBackupDataS c s).1)
    if !env.uploadOk then catchUpload initiator c s r.2
    else
      match getSettings s with
      | .null => catchUpload initiator c s r.2
      | cur =>
        let s2 :=
          if truthy (jsFieldT cur "backup") then
            saveSettings s (some (jsSetField cur "backup"
              (jsSetField ((jsFieldT cur "backup").getD .null) "lastBackupDate"
                (.str c.nowIso))))
          else s
        match addLog s2 initiator "Backup Drive"
            ("Backup automático enviado. ID: " ++ env.uploadFileId) c with
        | .error _ => catchUpload initiator c s2 r.2
        | .ok s3 => ⟨s3, r.2, .ok true⟩

/-- The due-ness computation of `runAutoBackupCheck` (lines 393-416): due when
no last-backup instant is recorded; otherwise decided by the frequency switch
over the elapsed milliseconds (the source divides by 3600000 and compares
hours; the comparisons are equivalent over exact arithmetic). A frequency
matching no switch case (including `never`) leaves `shouldBackup` false. -/
def shouldBackupCheck (freq : Option JsonValue) (lastBackup : Option Int)
    (nowMs : Int) : Bool :=
  match lastBackup with
  | none => true
  | some lastMs =>
    let diffMs := nowMs - lastMs
    match freq with
    | some (.str f) =>
      if f == "on_boot" then true
      else if f == "daily" then decide (24 * 3600000 ≤ diffMs)
      else if f == "weekly" then decide (168 * 3600000 ≤ diffMs)
      else if f == "monthly" then decide (720 * 3600000 ≤ diffMs)
      else false
    | _ => false

/-- The observable result of `GoogleDriveService.runAutoBackupCheck`:
final store and remote state, whether an upload cycle was triggered, and
whether an exception escaped (property access on `null` settings). -/
structure AutoCheckOutcome where
  store : Store
  drive : DriveState
  uploadAttempted : Bool
  escaped : Bool

/-- `GoogleDriveService.runAutoBackupCheck`: bail out unless a Drive client id
is configured and auto-backup is enabled; bail out when client initialization
fails (`initOk = false`); compute due-ness from `backup.lastBackupDate`
(converted to milliseconds by `dateMs`, modelling `new Date(x).getTime()`) and
`backup.frequency`; when due, run `uploadBackup` with failures swallowed. -/
def runAutoBackupCheck (env : RemoteEnv) (initOk : Bool) (dateMs : JsonValue → Int)
    (drive : DriveState) (c : Clock) (s : Store) : AutoCheckOutcome :=
  match getSettings s with
  | .null => ⟨s, drive, false, true⟩
  | settings =>
    let clientId := jsOptField (jsFieldT settings "googleDrive") "clientId"
    let backupF := jsFieldT settings "backup"
    if !truthy clientId || !truthy (jsOptField backupF "enabled") then
      ⟨s, drive, false, false⟩
    else if !initOk then ⟨s, drive, false, false⟩
    else
      match backupF with
      | some bv =>
        let lastRaw := jsFieldT bv "lastBackupDate"
        let lastBackup : Option Int :=
          match lastRaw with
          | some lv => if truthy (some lv) then some (dateMs lv) else none
          | none => none
        if shouldBackupCheck (jsFieldT bv "frequency") lastBackup (c.nowMs : Int) then
          let u := uploadBackup env drive "Automático" c s
          ⟨u.store, u.drive, true, false⟩
        else ⟨s, drive, false, false⟩
      | none => ⟨s, drive, false, false⟩

/-- Containment of one character list in another, used to state that an error
message does or does not name a field. -/
def charsContain (hay sub : List Char) : Bool :=
  match hay with
  | [] => sub.isEmpty
  | _ :: t => sub.isPrefixOf hay || charsContain t sub

/-- Substring test on strings (does `s` mention `sub`). -/
def strContainsSub (s sub : String) : Bool :=
  charsContain s.data sub.data

/-- A fixed clock for concrete runs. -/
def clock0 : Clock := ⟨1000, "2026-01-01T00:00:00.000Z"⟩

/-- A parse function for concrete runs whose input never reaches `JSON.parse`
(or is irrelevant to the run). -/
def parse0 : String → Except Unit JsonValue := fun _ => .error ()

/-- An empty remote store. -/
def drive0 : DriveState := ⟨[], 0⟩

/-- A remote environment whose calls all succeed. -/
def env0 : RemoteEnv := ⟨.ok "tok", true, "fid"⟩

/-- A remote environment whose upload step fails (`response.ok` false). -/
def envFail : RemoteEnv := ⟨.ok "tok", false, ""⟩

/-- Stored settings with Drive configured, auto-backup enabled, frequency
`never`, and no recorded `lastBackupDate`. -/
def settings0 : JsonValue :=
  .obj [("googleDrive", .obj [("clientId", .str "cid"), ("apiKey", .str "k")]),
        ("backup", .obj [("enabled", .bool true), ("frequency", .str "never")])]

/-- A store holding only `settings0`. -/
def store0 : Store := fun k => if k = .settings then some (.json settings0) else none

/-- A parsed restore document that carries `version` and `materials` but no
`settings`. -/
def json3 : JsonValue := .obj [("version", .str "1"), ("materials", .arr [])]

/-- A parsed restore document with truthy `version`, `materials` and
`settings` (with a non-empty administrator list) that lacks the `personnel`,
`cautelas` and `logs` collections. -/
def json10 : JsonValue :=
  .obj [("version", .str "1.1"), ("materials", .arr []),
        ("settings", .obj [("admins", .arr [.obj [("id", .str "1")]])])]

/-- Fields of a restore document whose settings carry an empty administrator
list, for the lockout-advisory scenario. -/
def fs8 : List (String × JsonValue) :=
  [("version", .str "1"), ("materials", .arr []),
   ("settings", .obj [("admins", .arr [])])]

/-- A store whose persisted settings also carry an empty administrator
list. -/
def store8 : Store :=
  fun k => if k = .settings then some (.json (.obj [("admins", .arr [])])) else none

/-- Fields of a restore document with truthy `version`, `materials` and
`settings` and no `personnel`, `cautelas` or `logs`. -/
def fs10 : List (String × JsonValue) :=
  [("version", .str "1"), ("materials", .arr []), ("settings", .obj [])]

/-- C5: For every remote-store state, resolving the fixed folder chain twice
in sequence returns the same folder id from both calls, the second call does
not change the remote state at all (in particular it creates nothing), and the
first call creates at most one folder per path segment. -/
theorem c5_folder_chain_idempotent (s : DriveState) :
    (findOrCreateFolderChain (findOrCreateFolderChain s).2).1 = (findOrCreateFolderChain s).1 ∧
    (findOrCreateFolderChain (findOrCreateFolderChain s).2).2 = (findOrCreateFolderChain s).2 ∧
    countName (findOrCreateFolderChain s).2 "App_Controle_Armamento"
      ≤ countName s "App_Controle_Armamento" + 1 ∧
    countName (findOrCreateFolderChain s).2 "Backups" ≤ countName s "Backups" + 1 := by
  cases hf1 : s.folders.find? (matchesQuery "App_Controle_Armamento" none) with
  | some f =>
    cases hf2 : s.folders.find? (matchesQuery "Backups" (some f.id)) with
    | some g =>
      simp [findOrCreateFolderChain, findFolder, hf1, hf2]
    | none =>
      have e1 : findOrCreateFolderChain s =
          (s.nextId, ⟨s.folders ++ [⟨s.nextId, "Backups", some f.id, false⟩], s.nextId + 1⟩) := by
        simp only [findOrCreateFolderChain, findFolder, hf1, Option.map_some', hf2,
          Option.map_none', createFolder]
      have g1 : (s.folders ++ [(⟨s.nextId, "Backups", some f.id, false⟩ : DriveFolder)]).find?
          (matchesQuery "App_Controle_Armamento" none) = some f := by
        rw [List.find?_append, hf1]; rfl
      have g2 : (s.folders ++ [(⟨s.nextId, "Backups", some f.id, false⟩ : DriveFolder)]).find?
          (matchesQuery "Backups" (some f.id)) = some ⟨s.nextId, "Backups", some f.id, false⟩ := by
        rw [List.find?_append, hf2]
        simp [List.find?, matchesQuery]
      have e2 : findOrCreateFolderChain
          ⟨s.folders ++ [⟨s.nextId, "Backups", some f.id, false⟩], s.nextId + 1⟩ =
          (s.nextId, ⟨s.folders ++ [⟨s.nextId, "Backups", some f.id, false⟩], s.nextId + 1⟩) := by
        simp only [findOrCreateFolderChain, findFolder, g1, Option.map_some', g2]
      rw [e1, e2]
      refine ⟨rfl, rfl, ?_, ?_⟩ <;>
        simp [countName, List.countP_append, List.countP_cons]
  | none =>
    have hr : (matchesQuery "App_Controle_Armamento" none)
        (⟨s.nextId, "App_Controle_Armamento", none, false⟩ : DriveFolder) = true := by
      simp [matchesQuery]
    cases hf2 : (s.folders
        ++ [(⟨s.nextId, "App_Controle_Armamento", none, false⟩ : DriveFolder)]).find?
        (matchesQuery "Backups" (some s.nextId)) with
    | some g =>
      have e1 : findOrCreateFolderChain s =
          (g.id, ⟨s.folders ++ [⟨s.nextId, "App_Controle_Armamento", none, false⟩],
            s.nextId + 1⟩) := by
        simp only [findOrCreateFolderChain, findFolder, hf1, Option.map_none', createFolder, hf2,
          Option.map_some']
      have g1 : (s.folders
          ++ [(⟨s.nextId, "App_Controle_Armamento", none, false⟩ : DriveFolder)]).find?
          (matchesQuery "App_Controle_Armamento" none)
          = some ⟨s.nextId, "App_Controle_Armamento", none, false⟩ := by
        rw [List.find?_append, hf1]
        simp [List.find?, hr]
      have e2 : findOrCreateFolderChain
          ⟨s.folders ++ [⟨s.nextId, "App_Controle_Armamento", none, false⟩], s.nextId + 1⟩ =
          (g.id, ⟨s.folders ++ [⟨s.nextId, "App_Controle_Armamento", none, false⟩],
            s.nextId + 1⟩) := by
        simp only [findOrCreateFolderChain, findFolder, g1, Option.map_some', hf2]
      rw [e1, e2]
      refine ⟨rfl, rfl, ?_, ?_⟩ <;>
        simp [countName, List.countP_append, List.countP_cons, matchesQuery]
    | none =>
      have e1 : findOrCreateFolderChain s =
          (s.nextId + 1, ⟨(s.folders ++ [⟨s.nextId, "App_Controle_Armamento", none, false⟩])
            ++ [⟨s.nextId + 1, "Backups", some s.nextId, false⟩], s.nextId + 1 + 1⟩) := by
        simp only [findOrCreateFolderChain, findFolder, hf1, Option.map_none', createFolder, hf2]
      have g1 : ((s.folders ++ [(⟨s.nextId, "App_Controle_Armamento", none, false⟩ : DriveFolder)])
          ++ [(⟨s.nextId + 1, "Backups", some s.nextId, false⟩ : DriveFolder)]).find?
          (matchesQuery "App_Controle_Armamento" none)
          = some ⟨s.nextId, "App_Controle_Armamento", none, false⟩ := by
        rw [List.find?_append, List.find?_append, hf1]
        simp [List.find?, hr, matchesQuery]
      have g2 : ((s.folders ++ [(⟨s.nextId, "App_Controle_Armamento", none, false⟩ : DriveFolder)])
          ++ [(⟨s.nextId + 1, "Backups", some s.nextId, false⟩ : DriveFolder)]).find?
          (matchesQuery "Backups" (some s.nextId))
          = some ⟨s.nextId + 1, "Backups", some s.nextId, false⟩ := by
        rw [List.find?_append, hf2]
        simp [List.find?, matchesQuery]
      have e2 : findOrCreateFolderChain
          ⟨(s.folders ++ [⟨s.nextId, "App_Controle_Armamento", none, false⟩])
            ++ [⟨s.nextId + 1, "Backups", some s.nextId, false⟩], s.nextId + 1 + 1⟩ =
          (s.nextId + 1, ⟨(s.folders ++ [⟨s.nextId, "App_Controle_Armamento", none, false⟩])
            ++ [⟨s.nextId + 1, "Backups", some s.nextId, false⟩], s.nextId + 1 + 1⟩) := by
        simp only [findOrCreateFolderChain, findFolder, g1, Option.map_some', g2]
      rw [e1, e2]
      refine ⟨rfl, rfl, ?_, ?_⟩ <;>
        simp [countName, List.countP_append, List.countP_cons, matchesQuery]

/-- C6: For every SnapshotDocument `d`, decoding the archive produced by
encoding `d` (packing the serialized text as the sole member of the container,
then locating the payload member by its `.json` suffix) yields exactly the
serialized text of `d`. -/
theorem c6_archive_roundtrip (d : JsonValue) :
    decodeZip (encodeZip (renderJson d)) = Except.ok (renderJson d) := by
  have h : jsEndsWith "backup_sentinela.json" ".json" = true := by decide
  simp [decodeZip, encodeZip, List.find?, h]

/-- C7: With a recorded last-backup instant, the due-check is not due 23 hours
after it and due 25 hours after it under `daily`; in general `daily` is due
exactly at 24 elapsed hours or more, `weekly` at 168 or more, and `monthly` at
720 or more. Times are in milliseconds (1 hour = 3600000 ms). -/
theorem c7_due_thresholds (nowMs lastMs : Int) :
    shouldBackupCheck (some (.str "daily")) (some (nowMs - 23 * 3600000)) nowMs = false ∧
    shouldBackupCheck (some (.str "daily")) (some (nowMs - 25 * 3600000)) nowMs = true ∧
    (shouldBackupCheck (some (.str "daily")) (some lastMs) nowMs = true
      ↔ 24 * 3600000 ≤ nowMs - lastMs) ∧
    (shouldBackupCheck (some (.str "weekly")) (some lastMs) nowMs = true
      ↔ 168 * 3600000 ≤ nowMs - lastMs) ∧
    (shouldBackupCheck (some (.str "monthly")) (some lastMs) nowMs = true
      ↔ 720 * 3600000 ≤ nowMs - lastMs) := by
  have hd : ∀ l n : Int, shouldBackupCheck (some (.str "daily")) (some l) n
      = decide (24 * 3600000 ≤ n - l) := fun l n => rfl
  have hw : ∀ l n : Int, shouldBackupCheck (some (.str "weekly")) (some l) n
      = decide (168 * 3600000 ≤ n - l) := fun l n => rfl
  have hm : ∀ l n : Int, shouldBackupCheck (some (.str "monthly")) (some l) n
      = decide (720 * 3600000 ≤ n - l) := fun l n => rfl
  refine ⟨?_, ?_, ?_, ?_, ?_⟩ <;> simp only [hd, hw, hm, decide_eq_true_eq,
    decide_eq_false_iff_not] <;> omega

/-- C9: Building a snapshot reads the five persisted collections and returns a
document containing exactly them plus the timestamp, the version tag `1.1` and
the integrity marker, while threading the store through unchanged (pure read,
no persistence mutation). -/
theorem c9_snapshot_pure_read (c : Clock) (s : Store) :
    (generateBackupDataS c s).2 = s ∧
    jsFieldT (generateBackupDataS c s).1 "materials" = some (getMaterials s) ∧
    jsFieldT (generateBackupDataS c s).1 "personnel" = some (getPersonnel s) ∧
    jsFieldT (generateBackupDataS c s).1 "cautelas" = some (getCautelas s) ∧
    jsFieldT (generateBackupDataS c s).1 "logs" = some (getLogs s) ∧
    jsFieldT (generateBackupDataS c s).1 "settings" = some (getSettings s) ∧
    jsFieldT (generateBackupDataS c s).1 "timestamp" = some (.str c.nowIso) ∧
    jsFieldT (generateBackupDataS c s).1 "version" = some (.str "1.1") ∧
    jsFieldT (generateBackupDataS c s).1 "integrityHash"
      = some (.str (toString c.nowMs)) :=
  ⟨rfl, rfl, rfl, rfl, rfl, rfl, rfl, rfl, rfl⟩

/-- Reading the key just written by `set` yields its encoded value. -/
theorem setVal_self (s : Store) (k : StorageKey) (v : Option JsonValue) :
    setVal s k v k = some (encodeStored v) := by simp [setVal]

/-- Writing one key leaves every other key unchanged. -/
theorem setVal_other (s : Store) (k : StorageKey) (v : Option JsonValue) (k2 : StorageKey)
    (h : k2 ≠ k) : setVal s k v k2 = s k2 := by simp [setVal, h]

/-- The restore apply step stores the document's materials under the
materials key. -/
theorem applyRestore_materials (json : JsonValue) (s : Store) :
    applyRestore json s .materials = some (encodeStored (jsFieldT json "materials")) := by
  simp [applyRestore, saveMaterials, savePersonnel, saveCautelas, saveLogs, saveSettings, setVal]

/-- The restore apply step stores the document's personnel under the
personnel key. -/
theorem applyRestore_personnel (json : JsonValue) (s : Store) :
    applyRestore json s .personnel = some (encodeStored (jsFieldT json "personnel")) := by
  simp [applyRestore, saveMaterials, savePersonnel, saveCautelas, saveLogs, saveSettings, setVal]

/-- The restore apply step stores the document's checkout records under the
cautelas key. -/
theorem applyRestore_cautelas (json : JsonValue) (s : Store) :
    applyRestore json s .cautelas = some (encodeStored (jsFieldT json "cautelas")) := by
  simp [applyRestore, saveMaterials, savePersonnel, saveCautelas, saveLogs, saveSettings, setVal]

/-- The restore apply step stores the document's audit logs under the logs
key. -/
theorem applyRestore_logs (json : JsonValue) (s : Store) :
    applyRestore json s .logs = some (encodeStored (jsFieldT json "logs")) := by
  simp [applyRestore, saveMaterials, savePersonnel, saveCautelas, saveLogs, saveSettings, setVal]

/-- The restore apply step stores the document's settings under the settings
key. -/
theorem applyRestore_settings (json : JsonValue) (s : Store) :
    applyRestore json s .settings = some (encodeStored (jsFieldT json "settings")) := by
  simp [applyRestore, saveMaterials, savePersonnel, saveCautelas, saveLogs, saveSettings, setVal]

/-- When the stored logs spread to a list, `addLog` prepends one entry. -/
theorem addLog_ok {s : Store} {tail : List JsonValue} (a b d : String) (c : Clock)
    (h : spreadList (getLogs s) = some tail) :
    addLog s a b d c = .ok (saveLogs s (some (.arr (logEntry a b d c :: tail)))) := by
  simp [addLog, h]

/-- A failed `JSON.parse` lands in the catch block: one processing-error audit
entry is prepended and the callback reports the critical failure. -/
theorem processJson_parse_error {s : Store} {tail : List JsonValue} (init : String) (c : Clock)
    (h : spreadList (getLogs s) = some tail) :
    processJson (.error ()) init c s =
      ⟨saveLogs s (some (.arr (logEntry init "Erro Restauração" "Erro ao processar JSON." c
        :: tail))), 0, some (false, "Erro crítico ao processar dados."), false⟩ := by
  simp only [processJson, catchProcess, addLog_ok _ _ _ _ h]

/-- A parsed object failing the structural check gets the fixed
invalid-structure audit entry and failure callback; the only store write is
the prepended audit entry. -/
theorem processJson_validation_fail {fs : List (String × JsonValue)} {s : Store}
    {tail : List JsonValue} (init : String) (c : Clock)
    (hfail : (truthy (jsFieldT (.obj fs) "version") && truthy (jsFieldT (.obj fs) "materials")
      && truthy (jsFieldT (.obj fs) "settings")) = false)
    (h : spreadList (getLogs s) = some tail) :
    processJson (.ok (.obj fs)) init c s =
      ⟨saveLogs s (some (.arr (logEntry init "Erro Restauração"
        "Arquivo inválido ou corrompido (falta estrutura básica)." c :: tail))), 0,
        some (false, "Estrutura do arquivo inválida."), false⟩ := by
  simp only [processJson, hfail, Bool.false_eq_true, if_false, addLog_ok _ _ _ _ h]

/-- A parsed object passing the structural check, whose advisory check
returns normally and whose applied logs value spreads, is fully applied:
the five saves run and exactly one success audit entry naming the restored
version is prepended. -/
theorem processJson_success {fs : List (String × JsonValue)} {sv : JsonValue} {s : Store}
    {w : Nat} {tail : List JsonValue} (init : String) (c : Clock)
    (hv : truthy (jsFieldT (.obj fs) "version") = true)
    (hm : truthy (jsFieldT (.obj fs) "materials") = true)
    (hsv : jsFieldT (.obj fs) "settings" = some sv)
    (hst : truthy (some sv) = true)
    (hadv : advisoryCheck sv s = .ok w)
    (hlogs : spreadList (getLogs (applyRestore (.obj fs) s)) = some tail) :
    processJson (.ok (.obj fs)) init c s =
      ⟨saveLogs (applyRestore (.obj fs) s) (some (.arr (logEntry init "Restauração"
        ("Sistema restaurado com sucesso. Versão do backup: "
          ++ jsToStringOpt (jsFieldT (.obj fs) "version")) c :: tail))), w,
        some (true, "Dados restaurados com sucesso."), false⟩ := by
  simp only [processJson, hv, hm, hsv, hst, Bool.and_self, if_true, Option.getD_some, hadv,
    addLog_ok _ _ _ _ hlogs]

/-- C3 (corrected): For every parsed restore object in which `version`, the
materials collection, or `settings` is absent, restore fails with the fixed
invalid-structure validation error (a generic constant message that does not
name the individual missing fields), the materials, personnel, checkout and
settings collections are left unwritten, and exactly one failure audit entry
is appended to the audit-log collection. -/
theorem c3_validation_rejection (fs : List (String × JsonValue))
    (pf : String → Except Unit JsonValue)
    (init : String) (c : Clock) (s : Store) (tail : List JsonValue)
    (habs : jsFieldT (.obj fs) "version" = none ∨ jsFieldT (.obj fs) "materials" = none
      ∨ jsFieldT (.obj fs) "settings" = none)
    (hsp : spreadList (getLogs s) = some tail) :
    (restoreBackup (.rawString (.ok (.obj fs))) pf init c s).callback
        = some (false, "Estrutura do arquivo inválida.") ∧
    (restoreBackup (.rawString (.ok (.obj fs))) pf init c s).escaped = false ∧
    (restoreBackup (.rawString (.ok (.obj fs))) pf init c s).store .materials = s .materials ∧
    (restoreBackup (.rawString (.ok (.obj fs))) pf init c s).store .personnel = s .personnel ∧
    (restoreBackup (.rawString (.ok (.obj fs))) pf init c s).store .cautelas = s .cautelas ∧
    (restoreBackup (.rawString (.ok (.obj fs))) pf init c s).store .settings = s .settings ∧
    (restoreBackup (.rawString (.ok (.obj fs))) pf init c s).store .logs
        = some (.json (.arr (logEntry init "Erro Restauração"
            "Arquivo inválido ou corrompido (falta estrutura básica)." c :: tail))) := by
  have hfail : (truthy (jsFieldT (.obj fs) "version") && truthy (jsFieldT (.obj fs) "materials")
      && truthy (jsFieldT (.obj fs) "settings")) = false := by
    rcases habs with h | h | h <;> simp [h, truthy]
  have he : restoreBackup (.rawString (.ok (.obj fs))) pf init c s
      = processJson (.ok (.obj fs)) init c s := rfl
  rw [he, processJson_validation_fail init c hfail hsp]
  refine ⟨rfl, rfl, ?_, ?_, ?_, ?_, ?_⟩ <;> simp [saveLogs, setVal, encodeStored]

/-- C3 counterexample: on a concrete document missing `settings`, the failure
messages are fixed constants that name neither `settings` nor any other
missing field, and the audit-log collection (one of the five persisted
collections) is written by the rejection path — refuting both the
field-naming and the no-persistence-mutation parts of the claim as stated. -/
theorem c3_validation_rejection_cex :
    (restoreBackup (.rawString (.ok json3)) parse0 "Sistema" clock0 emptyStore).callback
        = some (false, "Estrutura do arquivo inválida.") ∧
    emptyStore StorageKey.logs = none ∧
    (restoreBackup (.rawString (.ok json3)) parse0 "Sistema" clock0 emptyStore).store
        StorageKey.logs
        = some (.json (.arr [logEntry "Sistema" "Erro Restauração"
            "Arquivo inválido ou corrompido (falta estrutura básica)." clock0])) ∧
    strContainsSub "Estrutura do arquivo inválida." "settings" = false ∧
    strContainsSub "Arquivo inválido ou corrompido (falta estrutura básica)." "settings"
        = false ∧
    strContainsSub "Estrutura do arquivo inválida." "version" = false ∧
    strContainsSub "Arquivo inválido ou corrompido (falta estrutura básica)." "materials"
        = false := by
  refine ⟨rfl, rfl, rfl, ?_, ?_, ?_, ?_⟩ <;> decide

/-- C3 witness: the corrected statement discharged on a concrete document
that lacks the materials collection, against an empty store. -/
theorem c3_validation_rejection_witness :
    (restoreBackup (.rawString (.ok (.obj [("version", .str "1")]))) parse0 "Sistema" clock0
        emptyStore).callback = some (false, "Estrutura do arquivo inválida.") ∧
    (restoreBackup (.rawString (.ok (.obj [("version", .str "1")]))) parse0 "Sistema" clock0
        emptyStore).escaped = false ∧
    (restoreBackup (.rawString (.ok (.obj [("version", .str "1")]))) parse0 "Sistema" clock0
        emptyStore).store .materials = emptyStore .materials ∧
    (restoreBackup (.rawString (.ok (.obj [("version", .str "1")]))) parse0 "Sistema" clock0
        emptyStore).store .personnel = emptyStore .personnel ∧
    (restoreBackup (.rawString (.ok (.obj [("version", .str "1")]))) parse0 "Sistema" clock0
        emptyStore).store .cautelas = emptyStore .cautelas ∧
    (restoreBackup (.rawString (.ok (.obj [("version", .str "1")]))) parse0 "Sistema" clock0
        emptyStore).store .settings = emptyStore .settings ∧
    (restoreBackup (.rawString (.ok (.obj [("version", .str "1")]))) parse0 "Sistema" clock0
        emptyStore).store .logs
        = some (.json (.arr [logEntry "Sistema" "Erro Restauração"
            "Arquivo inválido ou corrompido (falta estrutura básica)." clock0])) :=
  c3_validation_rejection [("version", .str "1")] parse0 "Sistema" clock0 emptyStore []
    (Or.inr (Or.inl rfl)) rfl

/-- When the currently stored settings do not parse to `null`, the lockout
advisory check returns normally (with some warning count). -/
theorem advisoryCheck_ok (sv : JsonValue) (s : Store) (hcur : getSettings s ≠ .null) :
    ∃ w, advisoryCheck sv s = .ok w := by
  cases hgs : getSettings s
  case null => exact absurd hgs hcur
  all_goals simp only [advisoryCheck, hgs]
  all_goals split
  all_goals exact ⟨_, rfl⟩

/-- C4 (corrected): Success, validation-failure and JSON-parse-failure
outcomes of `restoreBackup` each append exactly one audit entry describing
the outcome (the success detail naming the restored version string), assuming
the audit-log collection read by the logger is iterable; but an
archive-decode failure invokes the failure callback without appending any
audit entry and leaves the store untouched. -/
theorem c4_terminal_audit :
    (∀ (pf : String → Except Unit JsonValue) (init : String) (c : Clock) (s : Store),
      restoreBackup (.zipFile (.error ())) pf init c s
        = ⟨s, 0, some (false, "Erro ao ler arquivo ZIP."), false⟩) ∧
    (∀ (pf : String → Except Unit JsonValue) (init : String) (c : Clock) (s : Store)
        (tail : List JsonValue),
      spreadList (getLogs s) = some tail →
      restoreBackup (.rawString (.error ())) pf init c s
        = ⟨saveLogs s (some (.arr (logEntry init "Erro Restauração" "Erro ao processar JSON." c
            :: tail))), 0, some (false, "Erro crítico ao processar dados."), false⟩) ∧
    (∀ (pf : String → Except Unit JsonValue) (init : String) (c : Clock) (s : Store)
        (fs : List (String × JsonValue)) (tail : List JsonValue),
      (truthy (jsFieldT (.obj fs) "version") && truthy (jsFieldT (.obj fs) "materials")
        && truthy (jsFieldT (.obj fs) "settings")) = false →
      spreadList (getLogs s) = some tail →
      restoreBackup (.rawString (.ok (.obj fs))) pf init c s
        = ⟨saveLogs s (some (.arr (logEntry init "Erro Restauração"
            "Arquivo inválido ou corrompido (falta estrutura básica)." c :: tail))), 0,
            some (false, "Estrutura do arquivo inválida."), false⟩) ∧
    (∀ (pf : String → Except Unit JsonValue) (init : String) (c : Clock) (s : Store)
        (fs : List (String × JsonValue)) (sv : JsonValue) (w : Nat) (tail : List JsonValue),
      truthy (jsFieldT (.obj fs) "version") = true →
      truthy (jsFieldT (.obj fs) "materials") = true →
      jsFieldT (.obj fs) "settings" = some sv →
      truthy (some sv) = true →
      advisoryCheck sv s = .ok w →
      spreadList (getLogs (applyRestore (.obj fs) s)) = some tail →
      restoreBackup (.rawString (.ok (.obj fs))) pf init c s
        = ⟨saveLogs (applyRestore (.obj fs) s) (some (.arr (logEntry init "Restauração"
            ("Sistema restaurado com sucesso. Versão do backup: "
              ++ jsToStringOpt (jsFieldT (.obj fs) "version")) c :: tail))), w,
            some (true, "Dados restaurados com sucesso."), false⟩) :=
  ⟨fun _pf _init _c _s => rfl,
    fun _pf init c _s _tail h => processJson_parse_error init c h,
    fun _pf init c _s _fs _tail hfail h => processJson_validation_fail init c hfail h,
    fun _pf init c _s _fs _sv _w _tail hv hm hsv hst hadv hlogs =>
      processJson_success init c hv hm hsv hst hadv hlogs⟩

/-- C4 counterexample: on a concrete archive-decode failure the callback
reports a terminal failure outcome, yet the audit-log collection is exactly as
before — zero entries were appended, refuting exactly-one. -/
theorem c4_terminal_audit_cex :
    (restoreBackup (.zipFile (.error ())) parse0 "Sistema" clock0 emptyStore).callback
        = some (false, "Erro ao ler arquivo ZIP.") ∧
    (restoreBackup (.zipFile (.error ())) parse0 "Sistema" clock0 emptyStore).store .logs
        = none ∧
    (restoreBackup (.zipFile (.error ())) parse0 "Sistema" clock0 emptyStore).store .logs
        = emptyStore .logs :=
  ⟨rfl, rfl, rfl⟩

/-- C4 witness: the corrected statement discharged on a concrete parse
failure against an empty store. -/
theorem c4_terminal_audit_witness :
    restoreBackup (.rawString (.error ())) parse0 "Sistema" clock0 emptyStore
      = ⟨saveLogs emptyStore (some (.arr [logEntry "Sistema" "Erro Restauração"
          "Erro ao processar JSON." clock0])), 0,
          some (false, "Erro crítico ao processar dados."), false⟩ :=
  c4_terminal_audit.2.1 parse0 "Sistema" clock0 emptyStore [] rfl

/-- C10 (corrected): A raw-text restore whose parsed object carries truthy
`version`, `materials` and `settings` but lacks `personnel`, `cautelas` and
`logs` passes validation and is applied and reported as success; the missing
personnel and checkout-records collections are overwritten in persistence
with the absent value (the unparseable string left by stringifying
`undefined`), while the missing audit-log collection — likewise overwritten
with the absent value during the apply step — ends up holding the single
success audit entry appended afterwards, not the absent value. -/
theorem c10_missing_collections (fs : List (String × JsonValue)) (sv : JsonValue)
    (pf : String → Except Unit JsonValue) (init : String) (c : Clock) (s : Store)
    (hv : truthy (jsFieldT (.obj fs) "version") = true)
    (hm : truthy (jsFieldT (.obj fs) "materials") = true)
    (hsv : jsFieldT (.obj fs) "settings" = some sv)
    (hst : truthy (some sv) = true)
    (hp : jsFieldT (.obj fs) "personnel" = none)
    (hca : jsFieldT (.obj fs) "cautelas" = none)
    (hlg : jsFieldT (.obj fs) "logs" = none)
    (hcur : getSettings s ≠ .null) :
    (restoreBackup (.rawString (.ok (.obj fs))) pf init c s).callback
        = some (true, "Dados restaurados com sucesso.") ∧
    (restoreBackup (.rawString (.ok (.obj fs))) pf init c s).escaped = false ∧
    (restoreBackup (.rawString (.ok (.obj fs))) pf init c s).store .materials
        = some (encodeStored (jsFieldT (.obj fs) "materials")) ∧
    (restoreBackup (.rawString (.ok (.obj fs))) pf init c s).store .settings
        = some (.json sv) ∧
    (restoreBackup (.rawString (.ok (.obj fs))) pf init c s).store .personnel
        = some StoredVal.invalid ∧
    (restoreBackup (.rawString (.ok (.obj fs))) pf init c s).store .cautelas
        = some StoredVal.invalid ∧
    (restoreBackup (.rawString (.ok (.obj fs))) pf init c s).store .logs
        = some (.json (.arr [logEntry init "Restauração"
            ("Sistema restaurado com sucesso. Versão do backup: "
              ++ jsToStringOpt (jsFieldT (.obj fs) "version")) c])) := by
  obtain ⟨w, hadv⟩ := advisoryCheck_ok sv s hcur
  have h1 : getLogs (applyRestore (.obj fs) s) = .arr [] := by
    unfold getLogs getVal
    rw [applyRestore_logs, hlg]
    rfl
  have hlogs : spreadList (getLogs (applyRestore (.obj fs) s)) = some [] := by
    rw [h1]; rfl
  have he : restoreBackup (.rawString (.ok (.obj fs))) pf init c s
      = processJson (.ok (.obj fs)) init c s := rfl
  rw [he, processJson_success init c hv hm hsv hst hadv hlogs]
  refine ⟨rfl, rfl, ?_, ?_, ?_, ?_, ?_⟩
  · simp [saveLogs, setVal, applyRestore_materials]
  · simp [saveLogs, setVal, applyRestore_settings, hsv, encodeStored]
  · simp [saveLogs, setVal, applyRestore_personnel, hp, encodeStored]
  · simp [saveLogs, setVal, applyRestore_cautelas, hca, encodeStored]
  · simp [saveLogs, setVal, encodeStored]

/-- C10 counterexample: on a concrete document lacking `personnel`,
`cautelas` and `logs`, the restore succeeds and personnel and cautelas are
indeed overwritten with the absent value, but the audit-logs key ends up
holding the one-element success-entry array, not the absent value — refuting
the claim that every missing collection is left overwritten with the absent
value. -/
theorem c10_missing_collections_cex :
    (restoreBackup (.rawString (.ok json10)) parse0 "Sistema" clock0 emptyStore).callback
        = some (true, "Dados restaurados com sucesso.") ∧
    (restoreBackup (.rawString (.ok json10)) parse0 "Sistema" clock0 emptyStore).store
        .personnel = some StoredVal.invalid ∧
    (restoreBackup (.rawString (.ok json10)) parse0 "Sistema" clock0 emptyStore).store
        .cautelas = some StoredVal.invalid ∧
    (restoreBackup (.rawString (.ok json10)) parse0 "Sistema" clock0 emptyStore).store
        .logs = some (.json (.arr [logEntry "Sistema" "Restauração"
            ("Sistema restaurado com sucesso. Versão do backup: "
              ++ jsToStringOpt (jsFieldT json10 "version")) clock0])) ∧
    jsToStringOpt (jsFieldT json10 "version") = "1.1" ∧
    ((restoreBackup (.rawString (.ok json10)) parse0 "Sistema" clock0 emptyStore).store
        .logs = some StoredVal.invalid → False) :=
  ⟨rfl, rfl, rfl, rfl, by simp [json10, jsFieldT, List.find?, jsToStringOpt, jsToString],
    fun h => StoredVal.noConfusion (Option.some.inj h)⟩

/-- C10 witness: the corrected statement discharged on a concrete document
against an empty store. -/
theorem c10_missing_collections_witness :
    (restoreBackup (.rawString (.ok (.obj fs10))) parse0 "Sistema" clock0 emptyStore).callback
        = some (true, "Dados restaurados com sucesso.") ∧
    (restoreBackup (.rawString (.ok (.obj fs10))) parse0 "Sistema" clock0
        emptyStore).escaped = false ∧
    (restoreBackup (.rawString (.ok (.obj fs10))) parse0 "Sistema" clock0 emptyStore).store
        .materials = some (encodeStored (jsFieldT (.obj fs10) "materials")) ∧
    (restoreBackup (.rawString (.ok (.obj fs10))) parse0 "Sistema" clock0 emptyStore).store
        .settings = some (.json (.obj [])) ∧
    (restoreBackup (.rawString (.ok (.obj fs10))) parse0 "Sistema" clock0 emptyStore).store
        .personnel = some StoredVal.invalid ∧
    (restoreBackup (.rawString (.ok (.obj fs10))) parse0 "Sistema" clock0 emptyStore).store
        .cautelas = some StoredVal.invalid ∧
    (restoreBackup (.rawString (.ok (.obj fs10))) parse0 "Sistema" clock0 emptyStore).store
        .logs = some (.json (.arr [logEntry "Sistema" "Restauração"
            ("Sistema restaurado com sucesso. Versão do backup: "
              ++ jsToStringOpt (jsFieldT (.obj fs10) "version")) clock0])) :=
  c10_missing_collections fs10 (.obj []) parse0 "Sistema" clock0 emptyStore rfl rfl rfl rfl
    rfl rfl rfl (fun h => JsonValue.noConfusion h)

/-- C8: A restore document that passes structural validation but whose
settings carry an absent or empty administrator list, while the currently
stored administrator list is also empty, only triggers the advisory (one
`console.warn`, counted in `warnings`); the restore is still fully applied —
all five collections are written — and reported as success. -/
theorem c8_lockout_advisory (fs : List (String × JsonValue)) (sv : JsonValue)
    (pf : String → Except Unit JsonValue) (init : String) (c : Clock) (s : Store)
    (tail : List JsonValue)
    (hv : truthy (jsFieldT (.obj fs) "version") = true)
    (hm : truthy (jsFieldT (.obj fs) "materials") = true)
    (hsv : jsFieldT (.obj fs) "settings" = some sv)
    (hst : truthy (some sv) = true)
    (hadm : jsFieldT sv "admins" = none ∨ jsFieldT sv "admins" = some (.arr []))
    (hcur : jsFieldT (getSettings s) "admins" = some (.arr []))
    (hlogs : spreadList (getLogs (applyRestore (.obj fs) s)) = some tail) :
    (restoreBackup (.rawString (.ok (.obj fs))) pf init c s).warnings = 1 ∧
    (restoreBackup (.rawString (.ok (.obj fs))) pf init c s).callback
        = some (true, "Dados restaurados com sucesso.") ∧
    (restoreBackup (.rawString (.ok (.obj fs))) pf init c s).escaped = false ∧
    (restoreBackup (.rawString (.ok (.obj fs))) pf init c s).store .materials
        = some (encodeStored (jsFieldT (.obj fs) "materials")) ∧
    (restoreBackup (.rawString (.ok (.obj fs))) pf init c s).store .personnel
        = some (encodeStored (jsFieldT (.obj fs) "personnel")) ∧
    (restoreBackup (.rawString (.ok (.obj fs))) pf init c s).store .cautelas
        = some (encodeStored (jsFieldT (.obj fs) "cautelas")) ∧
    (restoreBackup (.rawString (.ok (.obj fs))) pf init c s).store .settings
        = some (.json sv) ∧
    (restoreBackup (.rawString (.ok (.obj fs))) pf init c s).store .logs
        = some (.json (.arr (logEntry init "Restauração"
            ("Sistema restaurado com sucesso. Versão do backup: "
              ++ jsToStringOpt (jsFieldT (.obj fs) "version")) c :: tail))) := by
  have hcond : (!truthy (jsFieldT sv "admins")
      || strictEqZero (jsOptField (jsFieldT sv "admins") "length")) = true := by
    rcases hadm with h | h <;> rw [h] <;>
      simp [truthy, jsOptField, jsFieldT, strictEqZero]
  have hgsnn : getSettings s ≠ .null := by
    intro h
    rw [h] at hcur
    simp [jsFieldT] at hcur
  have hadv : advisoryCheck sv s = .ok 1 := by
    cases hgs : getSettings s
    case null => exact absurd hgs hgsnn
    all_goals rw [hgs] at hcur
    all_goals simp only [advisoryCheck, hgs, hcond, Bool.if_true_left]
    all_goals simp only [hcur] at *
    all_goals simp [optLenEqZero, strictEqZero, jsFieldT, hcur]
  have he : restoreBackup (.rawString (.ok (.obj fs))) pf init c s
      = processJson (.ok (.obj fs)) init c s := rfl
  rw [he, processJson_success init c hv hm hsv hst hadv hlogs]
  refine ⟨rfl, rfl, rfl, ?_, ?_, ?_, ?_, ?_⟩
  · simp [saveLogs, setVal, applyRestore_materials]
  · simp [saveLogs, setVal, applyRestore_personnel]
  · simp [saveLogs, setVal, applyRestore_cautelas]
  · simp [saveLogs, setVal, applyRestore_settings, hsv, encodeStored]
  · simp [saveLogs, setVal, encodeStored]

/-- C8 witness: the advisory-only behavior discharged on a concrete document
with an empty incoming administrator list against a store whose persisted
administrator list is also empty. -/
theorem c8_lockout_advisory_witness :
    (restoreBackup (.rawString (.ok (.obj fs8))) parse0 "Sistema" clock0 store8).warnings
        = 1 ∧
    (restoreBackup (.rawString (.ok (.obj fs8))) parse0 "Sistema" clock0 store8).callback
        = some (true, "Dados restaurados com sucesso.") ∧
    (restoreBackup (.rawString (.ok (.obj fs8))) parse0 "Sistema" clock0 store8).escaped
        = false ∧
    (restoreBackup (.rawString (.ok (.obj fs8))) parse0 "Sistema" clock0 store8).store
        .materials = some (encodeStored (jsFieldT (.obj fs8) "materials")) ∧
    (restoreBackup (.rawString (.ok (.obj fs8))) parse0 "Sistema" clock0 store8).store
        .personnel = some (encodeStored (jsFieldT (.obj fs8) "personnel")) ∧
    (restoreBackup (.rawString (.ok (.obj fs8))) parse0 "Sistema" clock0 store8).store
        .cautelas = some (encodeStored (jsFieldT (.obj fs8) "cautelas")) ∧
    (restoreBackup (.rawString (.ok (.obj fs8))) parse0 "Sistema" clock0 store8).store
        .settings = some (.json (.obj [("admins", .arr [])])) ∧
    (restoreBackup (.rawString (.ok (.obj fs8))) parse0 "Sistema" clock0 store8).store
        .logs = some (.json (.arr [logEntry "Sistema" "Restauração"
            ("Sistema restaurado com sucesso. Versão do backup: "
              ++ jsToStringOpt (jsFieldT (.obj fs8) "version")) clock0])) :=
  c8_lockout_advisory fs8 (.obj [("admins", .arr [])]) parse0 "Sistema" clock0 store8 []
    rfl rfl rfl rfl (Or.inr rfl) rfl rfl

/-- C2: For every backup cycle whose authentication succeeded but whose
upload step failed, the stored settings (and with them the BackupPolicy and
its `lastBackupDate`) are left unchanged, exactly one failure audit entry is
appended whose action and detail name the failed Drive send (the Uploading
step), and the exception is rethrown to the caller. -/
theorem c2_upload_failure_audit (env : RemoteEnv) (drive : DriveState) (init : String)
    (c : Clock) (s : Store) (tok : String) (tail : List JsonValue)
    (hauth : env.authToken = .ok tok)
    (hup : env.uploadOk = false)
    (hsp : spreadList (getLogs s) = some tail) :
    (uploadBackup env drive init c s).store .settings = s .settings ∧
    (uploadBackup env drive init c s).store .materials = s .materials ∧
    (uploadBackup env drive init c s).store .personnel = s .personnel ∧
    (uploadBackup env drive init c s).store .cautelas = s .cautelas ∧
    (uploadBackup env drive init c s).store .logs
        = some (.json (.arr (logEntry init "Erro Backup Drive"
            "Falha no envio para Google Drive." c :: tail))) ∧
    (uploadBackup env drive init c s).result = .error () := by
  have hc : catchUpload init c s (findOrCreateFolderChain drive).2
      = ⟨saveLogs s (some (.arr (logEntry init "Erro Backup Drive"
          "Falha no envio para Google Drive." c :: tail))),
          (findOrCreateFolderChain drive).2, .error ()⟩ := by
    simp only [catchUpload, addLog_ok _ _ _ _ hsp]
  have he : uploadBackup env drive init c s
      = catchUpload init c s (findOrCreateFolderChain drive).2 := by
    simp only [uploadBackup, hauth, hup, Bool.not_false, if_true]
  rw [he, hc]
  refine ⟨?_, ?_, ?_, ?_, ?_, rfl⟩ <;> simp [saveLogs, setVal, encodeStored]

/-- C2 witness: the failed-upload behavior discharged with a concrete failing
environment against an empty store. -/
theorem c2_upload_failure_audit_witness :
    (uploadBackup envFail drive0 "Sistema" clock0 emptyStore).store .settings
        = emptyStore .settings ∧
    (uploadBackup envFail drive0 "Sistema" clock0 emptyStore).store .materials
        = emptyStore .materials ∧
    (uploadBackup envFail drive0 "Sistema" clock0 emptyStore).store .personnel
        = emptyStore .personnel ∧
    (uploadBackup envFail drive0 "Sistema" clock0 emptyStore).store .cautelas
        = emptyStore .cautelas ∧
    (uploadBackup envFail drive0 "Sistema" clock0 emptyStore).store .logs
        = some (.json (.arr [logEntry "Sistema" "Erro Backup Drive"
            "Falha no envio para Google Drive." clock0])) ∧
    (uploadBackup envFail drive0 "Sistema" clock0 emptyStore).result = .error () :=
  c2_upload_failure_audit envFail drive0 "Sistema" clock0 emptyStore "tok" [] rfl rfl rfl

/-- C1 (corrected): With a recorded `lastBackupDate`, frequency `never` is
never due (the switch has no `never` case, so `shouldBackup` stays false);
but when `lastBackupDate` is absent the due-check returns due before the
frequency is ever consulted, so a policy with frequency `never` and no
recorded timestamp does trigger an upload cycle. -/
theorem c1_never_frequency (nowMs lastMs : Int) :
    shouldBackupCheck (some (.str "never")) (some lastMs) nowMs = false ∧
    shouldBackupCheck (some (.str "never")) none nowMs = true :=
  ⟨rfl, rfl⟩

/-- C1 counterexample: a concrete enabled policy with frequency `never` and
no `lastBackupDate` is reported due and `runAutoBackupCheck` triggers the
upload cycle — refuting "never is never due regardless of
`lastBackupTimestamp`". -/
theorem c1_never_frequency_cex :
    jsOptField (jsFieldT settings0 "backup") "frequency" = some (.str "never") ∧
    jsOptField (jsFieldT settings0 "backup") "lastBackupDate" = none ∧
    shouldBackupCheck (some (.str "never")) none (clock0.nowMs : Int) = true ∧
    (runAutoBackupCheck env0 true (fun _ => 0) drive0 clock0 store0).uploadAttempted
        = true := by
  refine ⟨rfl, rfl, rfl, ?_⟩
  rfl
